import Mathlib

/-!
CDI container edits for a discovered device.

A shallow embedding of `internal/edits/device.go` (package `edits`) of the
NVIDIA container toolkit, and theorems about the device-node record and the
supplementary-GID list that `toEdits` produces.

Conventions of the embedding:

* Go pointers that may be `nil` (`*os.FileMode`, `*uint32`) are `Option`s;
* a Go `(value, error)` result is an `Except GoError value`;
* a `nil` slice and an empty slice are both the empty list;
* `uint32` and `os.FileMode` values are natural numbers, `int64` values are
  integers; the code does no arithmetic on them, only bitwise masks and
  comparisons;
* the host filesystem, which `devices.DeviceFromPath` queries, is an explicit
  argument (`devices.HostFS`), so every function below is pure.
-/

/-- A Go `error` value, reduced to its message. -/
abbrev GoError := String

namespace os

/-- Go's `os.FileMode` (an unsigned 32-bit word: type bits and permission bits). -/
abbrev FileMode := Nat

/-- The standard library's `os.ModeDir`, bit 31. -/
def ModeDir : FileMode := 2 ^ 31

/-- The standard library's `os.ModeSymlink`, bit 27. -/
def ModeSymlink : FileMode := 2 ^ 27

/-- The standard library's `os.ModeDevice`, bit 26. -/
def ModeDevice : FileMode := 2 ^ 26

/-- The standard library's `os.ModeNamedPipe`, bit 25. -/
def ModeNamedPipe : FileMode := 2 ^ 25

/-- The standard library's `os.ModeSocket`, bit 24. -/
def ModeSocket : FileMode := 2 ^ 24

/-- The standard library's `os.ModeCharDevice`, bit 21. -/
def ModeCharDevice : FileMode := 2 ^ 21

/-- The standard library's `os.ModeIrregular`, bit 19. -/
def ModeIrregular : FileMode := 2 ^ 19

/-- The standard library's `os.ModeType`: the mask of all type bits. -/
def ModeType : FileMode :=
  ModeDir ||| ModeSymlink ||| ModeNamedPipe ||| ModeSocket ||| ModeDevice |||
    ModeCharDevice ||| ModeIrregular

/-- The standard library's `os.ModePerm`: the Unix permission bits, `0o777`. -/
def ModePerm : FileMode := 0o777

/-- The method `FileMode.Type()`: the type bits of the mode, `m & ModeType`. -/
def FileMode.Type (m : FileMode) : FileMode := m &&& ModeType

/-- The method `FileMode.Perm()`: the permission bits of the mode, `m & ModePerm`. -/
def FileMode.Perm (m : FileMode) : FileMode := m &&& ModePerm

end os

namespace discover

/-- The fields of `discover.Device` that package `edits` reads. -/
structure Device where
  HostPath : String
  Path : String
  deriving DecidableEq, Repr

end discover

namespace devices

/-- What a stat of a host device node reads: device numbers, mode and group owner. -/
structure HostNode where
  Major : Int
  Minor : Int
  Mode : os.FileMode
  Gid : Nat
  deriving DecidableEq, Repr

/-- A view of the host filesystem: the outcome of the stat of each host path. -/
abbrev HostFS := String → Except GoError HostNode

/-- The fields of runc's `devices.Device` that package `edits` reads. -/
structure Device where
  Major : Int
  Minor : Int
  FileMode : os.FileMode
  Permissions : String
  Gid : Nat
  deriving DecidableEq, Repr

/-- Modelled from the spec: `devices.DeviceFromPath` of runc's libcontainer, a
dependency whose source is not part of this package. It stats the host path; a
failed stat is returned as the error, and a successful one gives the node's
major, minor, mode and GID together with the permission string that was
requested. -/
def DeviceFromPath (fs : HostFS) (path permissions : String) : Except GoError Device :=
  match fs path with
  | .error err => .error err
  | .ok n =>
    .ok { Major := n.Major, Minor := n.Minor, FileMode := n.Mode,
          Permissions := permissions, Gid := n.Gid }

end devices

namespace specs

/-- The CDI `specs.DeviceNode` record, with the fields this package fills in. -/
structure DeviceNode where
  Path : String
  HostPath : String := ""
  Major : Int := 0
  Minor : Int := 0
  FileMode : Option os.FileMode := none
  Permissions : String := ""
  GID : Option Nat := none
  deriving DecidableEq, Repr

/-- The CDI `specs.ContainerEdits` record, with the fields this package fills in. -/
structure ContainerEdits where
  DeviceNodes : List DeviceNode := []
  AdditionalGIDs : List Nat := []
  deriving DecidableEq, Repr

end specs

namespace edits

/-- The type `device`: a discovered device with the flag that disables GID injection. -/
structure device extends discover.Device where
  noAdditionalGIDs : Bool
  deriving DecidableEq, Repr

/-- The function `ptrIfNonZero`: `nil` for zero, a pointer to the id otherwise. -/
def ptrIfNonZero (id : Nat) : Option Nat :=
  if id = 0 then none else some id

/-- The method `fromPathOrDefault`: the device node read from the host path, or
a minimal record when the host query fails. -/
def device.fromPathOrDefault (fs : devices.HostFS) (d : device) : specs.DeviceNode :=
  match devices.DeviceFromPath fs d.HostPath "rwm" with
  | .error _ =>
    { HostPath := d.HostPath, Path := d.Path }
  | .ok dn =>
    { HostPath := d.HostPath,
      Path := d.Path,
      Major := dn.Major,
      Minor := dn.Minor,
      FileMode := some dn.FileMode,
      Permissions := dn.Permissions,
      GID := ptrIfNonZero dn.Gid }

/-- The rewrite inside `toSpec` (`if s.HostPath == d.Path { s.HostPath = "" }`):
`HostPath` is cleared when it equals the device's `Path`. -/
def device.clearHostPath (d : device) (s : specs.DeviceNode) : specs.DeviceNode :=
  if s.HostPath = d.Path then { s with HostPath := "" } else s

/-- The method `toSpec`: the record of `fromPathOrDefault`, with `HostPath`
cleared when it equals `Path`. The error result is always `nil`. -/
def device.toSpec (fs : devices.HostFS) (d : device) : Except GoError specs.DeviceNode :=
  let s := d.fromPathOrDefault fs
  let s := d.clearHostPath s
  .ok s

/-- The method `getAdditionalGIDs`: the list of group ids to add for the device node. -/
def device.getAdditionalGIDs (d : device) (dn : specs.DeviceNode) : List Nat :=
  if d.noAdditionalGIDs then []
  else
    match dn.GID with
    | none => []
    | some gid =>
      match dn.FileMode with
      | none => []
      | some mode =>
        if mode.Type ≠ os.ModeCharDevice then []
        else if mode.Perm &&& 0o6 ≠ 0 then [gid]
        else []

/-- The method `toEdits`: the container edits of a discovered device. -/
def device.toEdits (fs : devices.HostFS) (d : device) : Except GoError specs.ContainerEdits :=
  match d.toSpec fs with
  | .error err => .error err
  | .ok deviceNode =>
    .ok { DeviceNodes := [deviceNode],
          AdditionalGIDs := d.getAdditionalGIDs deviceNode }

end edits

/-! Scenario inputs -/

namespace Scenario

/-- A host filesystem with one node at the given path; every other path fails to stat. -/
def hostWith (path : String) (n : devices.HostNode) : devices.HostFS :=
  fun p => if p = path then .ok n else .error "no such file or directory"

/-- The mode `crw-rw----`: the character-device type bit with permissions `0o660`. -/
def modeGroupOnly : os.FileMode := os.ModeCharDevice ||| 0o660

/-- The mode `crw-rw-rw-`: the character-device type bit with permissions `0o666`. -/
def modeWorld : os.FileMode := os.ModeCharDevice ||| 0o666

/-- Scenario S1: the GPU node at `/dev/nvidia0`, major 195, minor 0, `crw-rw----`, group 44. -/
def s1Host : devices.HostFS :=
  hostWith "/dev/nvidia0" { Major := 195, Minor := 0, Mode := modeGroupOnly, Gid := 44 }

/-- Scenario S1: the discovered device, host path equal to the container path. -/
def s1Device : edits.device :=
  { HostPath := "/dev/nvidia0", Path := "/dev/nvidia0", noAdditionalGIDs := false }

/-- Scenario S2: as S1, but the host node has mode `crw-rw-rw-`. -/
def s2Host : devices.HostFS :=
  hostWith "/dev/nvidia0" { Major := 195, Minor := 0, Mode := modeWorld, Gid := 44 }

/-- Scenario S4: the host node lives at `/var/run/nvidia/nvidia0`, otherwise as S1. -/
def s4Host : devices.HostFS :=
  hostWith "/var/run/nvidia/nvidia0" { Major := 195, Minor := 0, Mode := modeGroupOnly, Gid := 44 }

/-- Scenario S4: distinct host and container paths. -/
def s4Device : edits.device :=
  { HostPath := "/var/run/nvidia/nvidia0", Path := "/dev/nvidia0", noAdditionalGIDs := false }

/-- Scenario S5: the host path does not exist. -/
def s5Device : edits.device :=
  { HostPath := "/dev/does-not-exist", Path := "/dev/nvidia0", noAdditionalGIDs := false }

/-- Scenario S3: as S1, but the host node is owned by group 0. -/
def s3Host : devices.HostFS :=
  hostWith "/dev/nvidia0" { Major := 195, Minor := 0, Mode := modeGroupOnly, Gid := 0 }

/-- Scenario S6: as S1, but with the flag `noAdditionalGIDs` set. -/
def s6Device : edits.device :=
  { HostPath := "/dev/nvidia0", Path := "/dev/nvidia0", noAdditionalGIDs := true }

/-- The mode of a block device with permissions `0o660`: the device type bit
without the character-device bit. -/
def modeBlock : os.FileMode := os.ModeDevice ||| 0o660

/-- Scenario S7: a block device node at `/dev/sda`, major 8, minor 0, group 6. -/
def s7Host : devices.HostFS :=
  hostWith "/dev/sda" { Major := 8, Minor := 0, Mode := modeBlock, Gid := 6 }

/-- Scenario S7: the discovered block device. -/
def s7Device : edits.device :=
  { HostPath := "/dev/sda", Path := "/dev/sda", noAdditionalGIDs := false }

/-- The mode the `os` package reports for a character device: the device bit and
the character-device bit together, here with permissions `0o666`. -/
def modeDeviceChar : os.FileMode := os.ModeDevice ||| os.ModeCharDevice ||| 0o666

/-- Scenario S1 as the stat hands it over when the file-type bits of the Unix
mode are cleared: the permission bits `0o660` alone, no `os` type bit. -/
def s1StatHost : devices.HostFS :=
  hostWith "/dev/nvidia0" { Major := 195, Minor := 0, Mode := 0o660, Gid := 44 }

end Scenario

/-! Helper lemmas -/

namespace edits

theorem fromPathOrDefault_of_ok (fs : devices.HostFS) (d : device) (dn : devices.Device)
    (h : devices.DeviceFromPath fs d.HostPath "rwm" = .ok dn) :
    d.fromPathOrDefault fs =
      { HostPath := d.HostPath, Path := d.Path, Major := dn.Major, Minor := dn.Minor,
        FileMode := some dn.FileMode, Permissions := dn.Permissions,
        GID := ptrIfNonZero dn.Gid } := by
  unfold device.fromPathOrDefault
  rw [h]

theorem fromPathOrDefault_of_error (fs : devices.HostFS) (d : device) (err : GoError)
    (h : devices.DeviceFromPath fs d.HostPath "rwm" = .error err) :
    d.fromPathOrDefault fs = { HostPath := d.HostPath, Path := d.Path } := by
  unfold device.fromPathOrDefault
  rw [h]

theorem fromPathOrDefault_Path (fs : devices.HostFS) (d : device) :
    (d.fromPathOrDefault fs).Path = d.Path := by
  unfold device.fromPathOrDefault
  cases devices.DeviceFromPath fs d.HostPath "rwm" <;> rfl

theorem fromPathOrDefault_HostPath (fs : devices.HostFS) (d : device) :
    (d.fromPathOrDefault fs).HostPath = d.HostPath := by
  unfold device.fromPathOrDefault
  cases devices.DeviceFromPath fs d.HostPath "rwm" <;> rfl

theorem toEdits_eq (fs : devices.HostFS) (d : device) :
    d.toEdits fs =
      .ok { DeviceNodes := [d.clearHostPath (d.fromPathOrDefault fs)],
            AdditionalGIDs := d.getAdditionalGIDs (d.clearHostPath (d.fromPathOrDefault fs)) } := by
  rfl

theorem DeviceFromPath_Permissions (fs : devices.HostFS) (path permissions : String)
    (dn : devices.Device) (h : devices.DeviceFromPath fs path permissions = .ok dn) :
    dn.Permissions = permissions := by
  unfold devices.DeviceFromPath at h
  cases hn : fs path with
  | error e => rw [hn] at h; cases h
  | ok n => rw [hn] at h; cases h; rfl

theorem clearHostPath_HostPath (d : device) (s : specs.DeviceNode) :
    (d.clearHostPath s).HostPath = if s.HostPath = d.Path then "" else s.HostPath := by
  unfold device.clearHostPath
  split <;> rfl

theorem clearHostPath_Path (d : device) (s : specs.DeviceNode) :
    (d.clearHostPath s).Path = s.Path := by
  unfold device.clearHostPath
  split <;> rfl

theorem clearHostPath_GID (d : device) (s : specs.DeviceNode) :
    (d.clearHostPath s).GID = s.GID := by
  unfold device.clearHostPath
  split <;> rfl

theorem ptrIfNonZero_pos (id g : Nat) (h : ptrIfNonZero id = some g) : g = id ∧ 0 < g := by
  unfold ptrIfNonZero at h
  split at h
  · cases h
  · cases h
    exact ⟨rfl, Nat.pos_of_ne_zero (by assumption)⟩

theorem fromPathOrDefault_GID_pos (fs : devices.HostFS) (d : device) (g : Nat)
    (h : (d.fromPathOrDefault fs).GID = some g) : 0 < g := by
  unfold device.fromPathOrDefault at h
  cases hdn : devices.DeviceFromPath fs d.HostPath "rwm" with
  | error e => rw [hdn] at h; cases h
  | ok dn => rw [hdn] at h; exact (ptrIfNonZero_pos dn.Gid g h).2

theorem getAdditionalGIDs_nil_or_GID (d : device) (dn : specs.DeviceNode) :
    d.getAdditionalGIDs dn = [] ∨ ∃ g, dn.GID = some g ∧ d.getAdditionalGIDs dn = [g] := by
  unfold device.getAdditionalGIDs
  cases dn.GID with
  | none => left; simp
  | some g =>
    cases dn.FileMode with
    | none => left; simp
    | some m =>
      by_cases hflag : d.noAdditionalGIDs = true
      · left; simp [hflag]
      · by_cases ht : m.Type = os.ModeCharDevice
        · by_cases hp : m.Perm &&& 0o6 = 0
          · left; simp [hflag, ht, hp]
          · right; exact ⟨g, rfl, by simp [hflag, ht, hp]⟩
        · left; simp [hflag, ht]

theorem getAdditionalGIDs_of_type_ne (d : device) (dn : specs.DeviceNode) (m : os.FileMode)
    (hm : dn.FileMode = some m) (ht : m.Type ≠ os.ModeCharDevice) :
    d.getAdditionalGIDs dn = [] := by
  unfold device.getAdditionalGIDs
  rw [hm]
  cases dn.GID <;> simp [ht]

theorem Type_or_perm_mask (m : os.FileMode) : (m ||| 0o771).Type = m.Type := by
  unfold os.FileMode.Type
  rw [Nat.and_comm, Nat.and_or_distrib_left, Nat.and_comm os.ModeType m]
  have hz : os.ModeType &&& 0o771 = 0 := by decide
  rw [hz, Nat.or_zero]

theorem Perm_and_six (m : os.FileMode) : m.Perm &&& 0o6 = m &&& 0o6 := by
  unfold os.FileMode.Perm
  rw [Nat.and_assoc]
  have hz : os.ModePerm &&& 0o6 = 0o6 := by decide
  rw [hz]

theorem Perm_or_perm_mask (m : os.FileMode) : (m ||| 0o771).Perm &&& 0o6 = m.Perm &&& 0o6 := by
  rw [Perm_and_six, Perm_and_six, Nat.and_comm, Nat.and_or_distrib_left, Nat.and_comm 0o6 m]
  have hz : (0o6 : Nat) &&& 0o771 = 0 := by decide
  rw [hz, Nat.or_zero]

theorem Type_ne_of_ModeDevice (m : os.FileMode) (h : m &&& os.ModeDevice ≠ 0) :
    m.Type ≠ os.ModeCharDevice := by
  intro ht
  apply h
  have h1 : m.Type &&& os.ModeDevice = os.ModeCharDevice &&& os.ModeDevice := by rw [ht]
  unfold os.FileMode.Type at h1
  rw [Nat.and_assoc] at h1
  have e1 : os.ModeType &&& os.ModeDevice = os.ModeDevice := by decide
  have e2 : os.ModeCharDevice &&& os.ModeDevice = 0 := by decide
  rw [e1, e2] at h1
  exact h1

end edits

/-! Claims -/

namespace edits

/-- C1 (code evaluated at scenario S1): the flag is off and the host stat
succeeds with group 44 on the character device `/dev/nvidia0` with permissions
`rw-rw----`, whose other-triple grants neither read nor write. With the mode
`crw-rw----` (type bits equal to `os.ModeCharDevice`) `toEdits` returns the full
record and an empty `AdditionalGIDs` list, not `[44]`; and with the mode as the
stat hands it over once the Unix file-type bits are cleared (`0o660`, no type
bit) it returns the record with FileMode `0o660` and GID 44, and again an empty
`AdditionalGIDs` list. -/
theorem toEdits_s1_additionalGIDs_empty :
    Scenario.s1Device.noAdditionalGIDs = false ∧
    devices.DeviceFromPath Scenario.s1Host Scenario.s1Device.HostPath "rwm" =
      .ok { Major := 195, Minor := 0, FileMode := Scenario.modeGroupOnly,
            Permissions := "rwm", Gid := 44 } ∧
    Scenario.modeGroupOnly.Type = os.ModeCharDevice ∧
    Scenario.modeGroupOnly.Perm &&& 0o6 = 0 ∧
    Scenario.s1Device.toEdits Scenario.s1Host =
      .ok { DeviceNodes := [{ Path := "/dev/nvidia0", HostPath := "", Major := 195, Minor := 0,
                              FileMode := some Scenario.modeGroupOnly, Permissions := "rwm",
                              GID := some 44 }],
            AdditionalGIDs := [] } ∧
    devices.DeviceFromPath Scenario.s1StatHost Scenario.s1Device.HostPath "rwm" =
      .ok { Major := 195, Minor := 0, FileMode := 0o660, Permissions := "rwm", Gid := 44 } ∧
    os.FileMode.Type 0o660 = 0 ∧
    os.FileMode.Perm 0o660 &&& 0o6 = 0 ∧
    Scenario.s1Device.toEdits Scenario.s1StatHost =
      .ok { DeviceNodes := [{ Path := "/dev/nvidia0", HostPath := "", Major := 195, Minor := 0,
                              FileMode := some 0o660, Permissions := "rwm",
                              GID := some 44 }],
            AdditionalGIDs := [] } := by
  refine ⟨rfl, rfl, by decide, by decide, rfl, rfl, by decide, by decide, rfl⟩

/-- C3: `getAdditionalGIDs` returns the empty list when the flag is set, or the
record's GID is absent, or its FileMode is absent, or the mode's type is not
character device, or the permission bits masked with `0o006` are zero; when
none of these five exclusions applies it returns exactly the one-element list
holding the record's GID. -/
theorem getAdditionalGIDs_exclusions (d : device) (dn : specs.DeviceNode) :
    ((d.noAdditionalGIDs = true ∨ dn.GID = none ∨ dn.FileMode = none ∨
        (∃ m, dn.FileMode = some m ∧ m.Type ≠ os.ModeCharDevice) ∨
        (∃ m, dn.FileMode = some m ∧ m.Perm &&& 0o6 = 0)) →
      d.getAdditionalGIDs dn = []) ∧
    (∀ g m, d.noAdditionalGIDs = false → dn.GID = some g → dn.FileMode = some m →
        m.Type = os.ModeCharDevice → m.Perm &&& 0o6 ≠ 0 →
      d.getAdditionalGIDs dn = [g]) := by
  constructor
  · intro h
    unfold device.getAdditionalGIDs
    rcases h with h | h | h | ⟨m, hm, ht⟩ | ⟨m, hm, hp⟩
    · simp [h]
    · simp [h]
    · rw [h]
      cases dn.GID <;> simp
    · rw [hm]
      cases dn.GID <;> simp [ht]
    · rw [hm]
      cases dn.GID <;> simp [hp]
  · intro g m hflag hg hm ht hp
    unfold device.getAdditionalGIDs
    rw [hg, hm]
    simp [hflag, ht, hp]

/-- Witness of C3 on two records: one with mode `crw-rw----` (masked bits zero,
empty list) and one with mode `crw-rw-rw-` and GID 44 (no exclusion, `[44]`). -/
theorem getAdditionalGIDs_exclusions_witness :
    Scenario.s1Device.getAdditionalGIDs
        { Path := "/dev/nvidia0", FileMode := some Scenario.modeGroupOnly, GID := some 44 } = [] ∧
    Scenario.s1Device.getAdditionalGIDs
        { Path := "/dev/nvidia0", FileMode := some Scenario.modeWorld, GID := some 44 } = [44] :=
  ⟨(getAdditionalGIDs_exclusions Scenario.s1Device
      { Path := "/dev/nvidia0", FileMode := some Scenario.modeGroupOnly, GID := some 44 }).1
      (Or.inr (Or.inr (Or.inr (Or.inr ⟨Scenario.modeGroupOnly, rfl, by decide⟩)))),
   (getAdditionalGIDs_exclusions Scenario.s1Device
      { Path := "/dev/nvidia0", FileMode := some Scenario.modeWorld, GID := some 44 }).2
      44 Scenario.modeWorld rfl rfl rfl (by decide) (by decide)⟩

/-- C4: for every discovered device and every outcome of the host stat, `toEdits`
returns a container-edits value and a nil error; no stat error reaches the
caller. -/
theorem toEdits_never_fails (fs : devices.HostFS) (d : device) :
    (∃ e, d.toEdits fs = .ok e) ∧ (∀ err, d.toEdits fs ≠ .error err) := by
  rw [toEdits_eq]
  exact ⟨⟨_, rfl⟩, fun err h => by cases h⟩

/-- C5: when the host stat fails, the record returned by `toEdits` has Major 0,
Minor 0, no FileMode, empty Permissions and no GID; only Path, and HostPath
when it differs from Path, are populated; and `AdditionalGIDs` is empty. -/
theorem toEdits_stat_error (fs : devices.HostFS) (d : device) (err : GoError)
    (h : devices.DeviceFromPath fs d.HostPath "rwm" = .error err) :
    d.toEdits fs =
      .ok { DeviceNodes := [{ Path := d.Path,
                              HostPath := if d.HostPath = d.Path then "" else d.HostPath,
                              Major := 0, Minor := 0, FileMode := none, Permissions := "",
                              GID := none }],
            AdditionalGIDs := [] } := by
  rw [toEdits_eq, fromPathOrDefault_of_error fs d err h]
  unfold device.clearHostPath device.getAdditionalGIDs
  by_cases hp : d.HostPath = d.Path
  · cases hflag : d.noAdditionalGIDs <;> simp [hp]
  · cases hflag : d.noAdditionalGIDs <;> simp [hp]

/-- Witness of C5 at scenario S5: the host path `/dev/does-not-exist` fails to stat. -/
theorem toEdits_stat_error_witness :
    devices.DeviceFromPath Scenario.s1Host Scenario.s5Device.HostPath "rwm" =
      .error "no such file or directory" ∧
    Scenario.s5Device.toEdits Scenario.s1Host =
      .ok { DeviceNodes := [{ Path := Scenario.s5Device.Path,
                              HostPath := if Scenario.s5Device.HostPath = Scenario.s5Device.Path
                                then "" else Scenario.s5Device.HostPath,
                              Major := 0, Minor := 0, FileMode := none, Permissions := "",
                              GID := none }],
            AdditionalGIDs := [] } :=
  ⟨rfl, toEdits_stat_error Scenario.s1Host Scenario.s5Device "no such file or directory" rfl⟩

/-- C6: when the host stat succeeds with result `dn`, the record returned by
`toEdits` has Major and Minor of `dn`, FileMode present and equal to the full
mode of `dn`, and Permissions equal to those of `dn`, which are the requested
string `rwm`. -/
theorem toEdits_stat_ok_fields (fs : devices.HostFS) (d : device) (dn : devices.Device)
    (h : devices.DeviceFromPath fs d.HostPath "rwm" = .ok dn) :
    ∃ r gids, d.toEdits fs = .ok { DeviceNodes := [r], AdditionalGIDs := gids } ∧
      r.Major = dn.Major ∧ r.Minor = dn.Minor ∧ r.FileMode = some dn.FileMode ∧
      r.Permissions = dn.Permissions ∧ dn.Permissions = "rwm" := by
  refine ⟨_, _, toEdits_eq fs d, ?_⟩
  rw [fromPathOrDefault_of_ok fs d dn h]
  unfold device.clearHostPath
  have hperm := DeviceFromPath_Permissions fs d.HostPath "rwm" dn h
  by_cases hp : d.HostPath = d.Path
  · simp [hp, hperm]
  · simp [hp, hperm]

/-- Witness of C6 at scenario S1: the stat of `/dev/nvidia0` succeeds. -/
theorem toEdits_stat_ok_fields_witness :
    ∃ r gids, Scenario.s1Device.toEdits Scenario.s1Host =
        .ok { DeviceNodes := [r], AdditionalGIDs := gids } ∧
      r.Major = 195 ∧ r.Minor = 0 ∧ r.FileMode = some Scenario.modeGroupOnly ∧
      r.Permissions = "rwm" ∧ "rwm" = "rwm" :=
  toEdits_stat_ok_fields Scenario.s1Host Scenario.s1Device
    { Major := 195, Minor := 0, FileMode := Scenario.modeGroupOnly, Permissions := "rwm",
      Gid := 44 } rfl

/-- C7: for every discovered device and every stat outcome, the DeviceNodes list
returned by `toEdits` holds exactly one record, and its Path is the device's
Path. -/
theorem toEdits_single_record_path (fs : devices.HostFS) (d : device) :
    ∃ r gids, d.toEdits fs = .ok { DeviceNodes := [r], AdditionalGIDs := gids } ∧
      r.Path = d.Path := by
  refine ⟨_, _, toEdits_eq fs d, ?_⟩
  unfold device.clearHostPath
  split
  · exact fromPathOrDefault_Path fs d
  · exact fromPathOrDefault_Path fs d

/-- C8: for every discovered device whose HostPath equals its Path, whether the
host stat succeeds or fails, the record returned by `toSpec` and carried by
`toEdits` has an empty HostPath; and for every device, the output record never
has a non-empty HostPath equal to its Path. -/
theorem toSpec_clears_redundant_hostPath (fs : devices.HostFS) (d : device) :
    ∃ r gids, d.toSpec fs = .ok r ∧
      d.toEdits fs = .ok { DeviceNodes := [r], AdditionalGIDs := gids } ∧
      (d.HostPath = d.Path → r.HostPath = "") ∧
      ¬ (r.HostPath ≠ "" ∧ r.HostPath = r.Path) := by
  refine ⟨_, _, rfl, toEdits_eq fs d, ?_, ?_⟩
  · intro h
    rw [clearHostPath_HostPath, fromPathOrDefault_HostPath, if_pos h]
  · rw [clearHostPath_HostPath, clearHostPath_Path, fromPathOrDefault_HostPath,
      fromPathOrDefault_Path]
    by_cases h : d.HostPath = d.Path
    · simp [h]
    · simp [h]

/-- Witness of C8 at scenario S1, where HostPath and Path are both `/dev/nvidia0`. -/
theorem toSpec_clears_redundant_hostPath_witness :
    ∃ r gids, Scenario.s1Device.toSpec Scenario.s1Host = .ok r ∧
      Scenario.s1Device.toEdits Scenario.s1Host =
        .ok { DeviceNodes := [r], AdditionalGIDs := gids } ∧
      r.HostPath = "" ∧ ¬ (r.HostPath ≠ "" ∧ r.HostPath = r.Path) := by
  obtain ⟨r, gids, hs, he, hclear, hne⟩ :=
    toSpec_clears_redundant_hostPath Scenario.s1Host Scenario.s1Device
  exact ⟨r, gids, hs, he, hclear rfl, hne⟩

/-- C9: for every discovered device whose HostPath differs from its Path, and
every stat outcome, the record returned by `toSpec` and carried by `toEdits`
has HostPath equal to the device's HostPath, unchanged. -/
theorem toSpec_keeps_distinct_hostPath (fs : devices.HostFS) (d : device)
    (h : d.HostPath ≠ d.Path) :
    ∃ r gids, d.toSpec fs = .ok r ∧
      d.toEdits fs = .ok { DeviceNodes := [r], AdditionalGIDs := gids } ∧
      r.HostPath = d.HostPath := by
  refine ⟨_, _, rfl, toEdits_eq fs d, ?_⟩
  rw [clearHostPath_HostPath, fromPathOrDefault_HostPath, if_neg h]

/-- Witness of C9 at scenario S4: host path `/var/run/nvidia/nvidia0`, container
path `/dev/nvidia0`, stat succeeding with group 44. -/
theorem toSpec_keeps_distinct_hostPath_witness :
    Scenario.s4Device.HostPath ≠ Scenario.s4Device.Path ∧
    ∃ r gids, Scenario.s4Device.toSpec Scenario.s4Host = .ok r ∧
      Scenario.s4Device.toEdits Scenario.s4Host =
        .ok { DeviceNodes := [r], AdditionalGIDs := gids } ∧
      r.HostPath = "/var/run/nvidia/nvidia0" :=
  ⟨by decide, toSpec_keeps_distinct_hostPath Scenario.s4Host Scenario.s4Device (by decide)⟩

/-- C10: for every discovered device and stat outcome, whenever the
`AdditionalGIDs` list returned by `toEdits` has length 1, the output record's
GID is present, strictly positive, and equal to that single element. -/
theorem toEdits_singleton_is_record_GID (fs : devices.HostFS) (d : device) :
    ∃ r gids, d.toEdits fs = .ok { DeviceNodes := [r], AdditionalGIDs := gids } ∧
      (gids.length = 1 → ∃ g, r.GID = some g ∧ 0 < g ∧ gids = [g]) := by
  refine ⟨_, _, toEdits_eq fs d, ?_⟩
  intro hlen
  rcases getAdditionalGIDs_nil_or_GID d (d.clearHostPath (d.fromPathOrDefault fs)) with
    hnil | ⟨g, hg, hgids⟩
  · rw [hnil] at hlen
    cases hlen
  · refine ⟨g, hg, ?_, hgids⟩
    rw [clearHostPath_GID] at hg
    exact fromPathOrDefault_GID_pos fs d g hg

/-- Witness of C10 at scenario S2, where the list has length 1: the record's GID
and the single element are both 44. -/
theorem toEdits_singleton_is_record_GID_witness :
    ∃ r gids, Scenario.s1Device.toEdits Scenario.s2Host =
        .ok { DeviceNodes := [r], AdditionalGIDs := gids } ∧
      gids.length = 1 ∧ ∃ g, r.GID = some g ∧ 0 < g ∧ gids = [g] := by
  obtain ⟨r, gids, he, himp⟩ :=
    toEdits_singleton_is_record_GID Scenario.s2Host Scenario.s1Device
  have hval : Scenario.s1Device.toEdits Scenario.s2Host =
      .ok { DeviceNodes := [{ Path := "/dev/nvidia0", HostPath := "", Major := 195, Minor := 0,
                              FileMode := some Scenario.modeWorld, Permissions := "rwm",
                              GID := some 44 }],
            AdditionalGIDs := [44] } := rfl
  have hlen : gids.length = 1 := by
    rw [hval] at he
    cases he
    rfl
  exact ⟨r, gids, he, hlen, himp hlen⟩

/-- C11: when the host stat succeeds with group id `g`, the output record's GID
is absent if and only if `g` is zero; when present it equals `g` and is
strictly positive; and with `g` zero the `AdditionalGIDs` list is empty, for
every mode and flag value. -/
theorem toEdits_GID_absent_iff_zero (fs : devices.HostFS) (d : device) (dn : devices.Device)
    (h : devices.DeviceFromPath fs d.HostPath "rwm" = .ok dn) :
    ∃ r gids, d.toEdits fs = .ok { DeviceNodes := [r], AdditionalGIDs := gids } ∧
      (r.GID = none ↔ dn.Gid = 0) ∧
      (∀ g, r.GID = some g → g = dn.Gid ∧ 0 < g) ∧
      (dn.Gid = 0 → gids = []) := by
  refine ⟨_, _, toEdits_eq fs d, ?_, ?_, ?_⟩
  · rw [clearHostPath_GID, fromPathOrDefault_of_ok fs d dn h]
    unfold ptrIfNonZero
    by_cases hz : dn.Gid = 0
    · simp [hz]
    · simp [hz]
  · intro g hg
    rw [clearHostPath_GID, fromPathOrDefault_of_ok fs d dn h] at hg
    exact ptrIfNonZero_pos dn.Gid g hg
  · intro hz
    rcases getAdditionalGIDs_nil_or_GID d (d.clearHostPath (d.fromPathOrDefault fs)) with
      hnil | ⟨g, hg, _⟩
    · exact hnil
    · rw [clearHostPath_GID, fromPathOrDefault_of_ok fs d dn h] at hg
      have hpos := (ptrIfNonZero_pos dn.Gid g hg)
      omega

/-- Witness of C11 at scenario S3: the stat succeeds with group 0. -/
theorem toEdits_GID_absent_iff_zero_witness :
    ∃ r gids, Scenario.s1Device.toEdits Scenario.s3Host =
        .ok { DeviceNodes := [r], AdditionalGIDs := gids } ∧
      (r.GID = none ↔ (0 : Nat) = 0) ∧
      (∀ g, r.GID = some g → g = 0 ∧ 0 < g) ∧
      ((0 : Nat) = 0 → gids = []) :=
  toEdits_GID_absent_iff_zero Scenario.s3Host Scenario.s1Device
    { Major := 195, Minor := 0, FileMode := Scenario.modeGroupOnly, Permissions := "rwm",
      Gid := 0 } rfl

/-- C12: for every discovered device with the flag `noAdditionalGIDs` set and
every stat outcome, the `AdditionalGIDs` list returned by `toEdits` is empty. -/
theorem toEdits_flag_set_no_GIDs (fs : devices.HostFS) (d : device)
    (h : d.noAdditionalGIDs = true) :
    ∃ r, d.toEdits fs = .ok { DeviceNodes := [r], AdditionalGIDs := [] } := by
  refine ⟨d.clearHostPath (d.fromPathOrDefault fs), ?_⟩
  rw [toEdits_eq]
  have hnil : d.getAdditionalGIDs (d.clearHostPath (d.fromPathOrDefault fs)) = [] := by
    unfold device.getAdditionalGIDs
    simp [h]
  rw [hnil]

/-- Witness of C12 at scenario S6 with the world-accessible node of S2, where
the list would hold 44 without the flag. -/
theorem toEdits_flag_set_no_GIDs_witness :
    ∃ r, Scenario.s6Device.toEdits Scenario.s2Host =
      .ok { DeviceNodes := [r], AdditionalGIDs := [] } :=
  toEdits_flag_set_no_GIDs Scenario.s2Host Scenario.s6Device rfl

/-- C13: for every discovered device and every stat outcome, the
`AdditionalGIDs` list returned by `toEdits` has length 0 or 1. -/
theorem toEdits_GIDs_length_le_one (fs : devices.HostFS) (d : device) :
    ∃ r gids, d.toEdits fs = .ok { DeviceNodes := [r], AdditionalGIDs := gids } ∧
      (gids.length = 0 ∨ gids.length = 1) := by
  refine ⟨_, _, toEdits_eq fs d, ?_⟩
  rcases getAdditionalGIDs_nil_or_GID d (d.clearHostPath (d.fromPathOrDefault fs)) with
    hnil | ⟨g, _, hgids⟩
  · left
    rw [hnil]
    rfl
  · right
    rw [hgids]
    rfl

/-- C14: when the host stat succeeds with a mode whose type is not character
device, `AdditionalGIDs` is empty whatever the permission bits, the GID and the
flag, while the record carries Path, Major, Minor, the full FileMode, the
Permissions `rwm` and the GID (absent only when the host GID is zero). -/
theorem toEdits_not_char_device (fs : devices.HostFS) (d : device) (dn : devices.Device)
    (h : devices.DeviceFromPath fs d.HostPath "rwm" = .ok dn)
    (ht : dn.FileMode.Type ≠ os.ModeCharDevice) :
    ∃ r, d.toEdits fs = .ok { DeviceNodes := [r], AdditionalGIDs := [] } ∧
      r.Path = d.Path ∧ r.Major = dn.Major ∧ r.Minor = dn.Minor ∧
      r.FileMode = some dn.FileMode ∧ r.Permissions = "rwm" ∧
      r.GID = ptrIfNonZero dn.Gid ∧ (dn.Gid ≠ 0 → r.GID = some dn.Gid) := by
  have hperm := DeviceFromPath_Permissions fs d.HostPath "rwm" dn h
  have hmode : (d.clearHostPath (d.fromPathOrDefault fs)).FileMode = some dn.FileMode := by
    rw [fromPathOrDefault_of_ok fs d dn h]
    unfold device.clearHostPath
    split <;> rfl
  have hnil : d.getAdditionalGIDs (d.clearHostPath (d.fromPathOrDefault fs)) = [] :=
    (getAdditionalGIDs_of_type_ne d _ dn.FileMode hmode ht)
  refine ⟨d.clearHostPath (d.fromPathOrDefault fs), ?_, ?_⟩
  · rw [toEdits_eq, hnil]
  · rw [fromPathOrDefault_of_ok fs d dn h]
    unfold device.clearHostPath ptrIfNonZero
    by_cases hp : d.HostPath = d.Path
    · by_cases hz : dn.Gid = 0 <;> simp [hp, hz, hperm]
    · by_cases hz : dn.Gid = 0 <;> simp [hp, hz, hperm]

/-- Witness of C14 at scenario S7: a block device with permissions `0o660` and
group 6. -/
theorem toEdits_not_char_device_witness :
    ∃ r, Scenario.s7Device.toEdits Scenario.s7Host =
        .ok { DeviceNodes := [r], AdditionalGIDs := [] } ∧
      r.Path = "/dev/sda" ∧ r.Major = 8 ∧ r.Minor = 0 ∧
      r.FileMode = some Scenario.modeBlock ∧ r.Permissions = "rwm" ∧
      r.GID = ptrIfNonZero 6 ∧ ((6 : Nat) ≠ 0 → r.GID = some 6) :=
  toEdits_not_char_device Scenario.s7Host Scenario.s7Device
    { Major := 8, Minor := 0, FileMode := Scenario.modeBlock, Permissions := "rwm", Gid := 6 }
    rfl (by decide)

/-- C15: the rewrite of `toSpec` that clears HostPath when it equals Path is
idempotent: for every device and every record, applying it to the rewritten
record gives the same record as applying it once, also when Path is empty. -/
theorem clearHostPath_idempotent (d : device) (s : specs.DeviceNode) :
    d.clearHostPath (d.clearHostPath s) = d.clearHostPath s := by
  unfold device.clearHostPath
  by_cases h : s.HostPath = d.Path
  · simp only [h, if_true]
    split <;> rfl
  · simp only [h, if_false]

/-- C16: the rewrite of `toSpec` changes nothing but HostPath: for every device
and stat outcome, the record of `toSpec` agrees with the record of
`fromPathOrDefault` on Path, Major, Minor, FileMode, Permissions and GID, and
its HostPath is the original HostPath or the empty string. -/
theorem toSpec_frame (fs : devices.HostFS) (d : device) :
    ∃ r, d.toSpec fs = .ok r ∧
      r.Path = (d.fromPathOrDefault fs).Path ∧
      r.Major = (d.fromPathOrDefault fs).Major ∧
      r.Minor = (d.fromPathOrDefault fs).Minor ∧
      r.FileMode = (d.fromPathOrDefault fs).FileMode ∧
      r.Permissions = (d.fromPathOrDefault fs).Permissions ∧
      r.GID = (d.fromPathOrDefault fs).GID ∧
      (r.HostPath = (d.fromPathOrDefault fs).HostPath ∨ r.HostPath = "") := by
  refine ⟨d.clearHostPath (d.fromPathOrDefault fs), rfl, ?_⟩
  unfold device.clearHostPath
  split
  · exact ⟨rfl, rfl, rfl, rfl, rfl, rfl, Or.inr rfl⟩
  · exact ⟨rfl, rfl, rfl, rfl, rfl, rfl, Or.inl rfl⟩

/-- C17: the flag `noAdditionalGIDs` affects only the `AdditionalGIDs` list: two
devices with the same HostPath and Path, under the same stat outcome, get the
same device-node record from `toEdits`, whatever their flags. -/
theorem toEdits_record_independent_of_flag (fs : devices.HostFS) (d₁ d₂ : device)
    (hh : d₁.HostPath = d₂.HostPath) (hp : d₁.Path = d₂.Path) :
    ∃ r gids₁ gids₂,
      d₁.toEdits fs = .ok { DeviceNodes := [r], AdditionalGIDs := gids₁ } ∧
      d₂.toEdits fs = .ok { DeviceNodes := [r], AdditionalGIDs := gids₂ } := by
  have hrec : d₂.clearHostPath (d₂.fromPathOrDefault fs) =
      d₁.clearHostPath (d₁.fromPathOrDefault fs) := by
    unfold device.clearHostPath device.fromPathOrDefault
    rw [hh, hp]
  refine ⟨d₁.clearHostPath (d₁.fromPathOrDefault fs),
    d₁.getAdditionalGIDs (d₁.clearHostPath (d₁.fromPathOrDefault fs)),
    d₂.getAdditionalGIDs (d₁.clearHostPath (d₁.fromPathOrDefault fs)),
    toEdits_eq fs d₁, ?_⟩
  rw [toEdits_eq, hrec]

/-- Witness of C17 at scenarios S1 and S6, which differ only in the flag: both
get the full record with GID 44. -/
theorem toEdits_record_independent_of_flag_witness :
    ∃ r gids₁ gids₂,
      Scenario.s1Device.toEdits Scenario.s1Host =
        .ok { DeviceNodes := [r], AdditionalGIDs := gids₁ } ∧
      Scenario.s6Device.toEdits Scenario.s1Host =
        .ok { DeviceNodes := [r], AdditionalGIDs := gids₂ } :=
  toEdits_record_independent_of_flag Scenario.s1Host Scenario.s1Device Scenario.s6Device rfl rfl

/-- C18: `getAdditionalGIDs` depends on the permission bits only through the
mask `0o006`: two records that are equal except for the bits `0o771` of their
FileMode (owner triple, group triple, other-execute), with the same flag, get
the same list. -/
theorem getAdditionalGIDs_perm_mask (d : device) (dn : specs.DeviceNode) (m₁ m₂ : os.FileMode)
    (h : m₁ ||| 0o771 = m₂ ||| 0o771) :
    d.getAdditionalGIDs { dn with FileMode := some m₁ } =
      d.getAdditionalGIDs { dn with FileMode := some m₂ } := by
  have ht : m₁.Type = m₂.Type := by
    rw [← Type_or_perm_mask m₁, ← Type_or_perm_mask m₂, h]
  have hp : m₁.Perm &&& 0o6 = m₂.Perm &&& 0o6 := by
    rw [← Perm_or_perm_mask m₁, ← Perm_or_perm_mask m₂, h]
  unfold device.getAdditionalGIDs
  simp only [ht, hp]

/-- Witness of C18: the modes `crw-rw-rw-` and `c------rwx` differ only in bits
of `0o771`; with GID 44 and the flag off both give `[44]`. -/
theorem getAdditionalGIDs_perm_mask_witness :
    Scenario.s1Device.getAdditionalGIDs
        { Path := "/dev/nvidia0", FileMode := some Scenario.modeWorld, GID := some 44 } =
      Scenario.s1Device.getAdditionalGIDs
        { Path := "/dev/nvidia0", FileMode := some (os.ModeCharDevice ||| 0o007),
          GID := some 44 } :=
  getAdditionalGIDs_perm_mask Scenario.s1Device { Path := "/dev/nvidia0", GID := some 44 }
    Scenario.modeWorld (os.ModeCharDevice ||| 0o007) (by decide)

/-- C19: `getAdditionalGIDs` wants the type bits to be exactly
`os.ModeCharDevice`: for every record whose FileMode has `os.ModeDevice` set
together with `os.ModeCharDevice`, or has no type bit set, it returns the empty
list for every GID, permission bits and flag value. -/
theorem getAdditionalGIDs_exact_type (d : device) (dn : specs.DeviceNode) (m : os.FileMode)
    (hm : dn.FileMode = some m)
    (h : (m &&& os.ModeDevice = os.ModeDevice ∧ m &&& os.ModeCharDevice = os.ModeCharDevice) ∨
         m.Type = 0) :
    d.getAdditionalGIDs dn = [] := by
  apply getAdditionalGIDs_of_type_ne d dn m hm
  rcases h with ⟨hd, _⟩ | hz
  · apply Type_ne_of_ModeDevice
    rw [hd]
    decide
  · rw [hz]
    decide

/-- Witness of C19: a record with the device and character-device bits both set,
permissions `0o666` and GID 44, and a record with no type bit set. -/
theorem getAdditionalGIDs_exact_type_witness :
    Scenario.s1Device.getAdditionalGIDs
        { Path := "/dev/nvidia0", FileMode := some Scenario.modeDeviceChar, GID := some 44 } = [] ∧
    Scenario.s1Device.getAdditionalGIDs
        { Path := "/dev/nvidia0", FileMode := some 0o666, GID := some 44 } = [] :=
  ⟨getAdditionalGIDs_exact_type Scenario.s1Device
      { Path := "/dev/nvidia0", FileMode := some Scenario.modeDeviceChar, GID := some 44 }
      Scenario.modeDeviceChar rfl (Or.inl ⟨by decide, by decide⟩),
   getAdditionalGIDs_exact_type Scenario.s1Device
      { Path := "/dev/nvidia0", FileMode := some 0o666, GID := some 44 }
      0o666 rfl (Or.inr (by decide))⟩

end edits
